import Mathlib

/-!
Verification of the MEV-bot core against its specification.

The definitions below are a shallow embedding of the Python sources under
`src/mevbot/`.  Python `Decimal` / `float` arithmetic on monetary quantities is
idealized as exact rational arithmetic (`ℚ`); wall-clock times are passed
explicitly as rational parameters; `async` methods are embedded as pure state
transformers (the code never interleaves state mutation with awaits on shared
state inside the functions modelled here).
-/

namespace MevBot

/-! ### Circuit breaker (`src/mevbot/core/safety/circuit_breaker.py`) -/

/-- Transaction dictionary as consumed by `CircuitBreaker.validate_transaction`.
Optional fields model `tx.get(...)` / `'key' in tx` lookups; a missing `value`
key raises `KeyError` in Python, caught by the surrounding `except` clause.
All amounts are in wei (gas price in wei, converted to gwei by the code). -/
structure Tx where
  value : Option ℕ
  gasPrice : Option ℕ
  gas : Option ℕ
  expectedProfit : Option ℕ
  expectedPrice : Option ℕ
  actualPrice : Option ℕ
  deriving Repr, DecidableEq

/-- State of a `CircuitBreaker` instance: the `enabled` / `triggered` /
`trigger_reason` flags, the `PositionLimit`, `GasLimit` and `ProfitMetrics`
dataclasses, rate limiting and slippage fields, and the two bookkeeping
timestamps, together with the two intervals read from `config.get`. -/
structure CBState where
  enabled : Bool
  triggered : Bool
  triggerReason : Option String
  maxPositionSize : ℚ
  currentSize : ℚ
  maxGasPriceGwei : ℚ
  maxDailyGasSpend : ℚ
  currentDailySpend : ℚ
  minProfitThreshold : ℚ
  maxDailyLoss : ℚ
  currentDailyPnl : ℚ
  txWindow : ℚ
  maxTxPerWindow : ℕ
  txTimestamps : List ℚ
  maxSlippage : ℚ
  lastHealthCheck : ℚ
  lastMetricsReset : ℚ
  metricsResetInterval : ℚ
  healthCheckInterval : ℚ
  deriving Repr, DecidableEq

/-- Embeds `Web3.from_wei(n, 'ether')`: wei to ether. -/
def weiToEther (n : ℕ) : ℚ := (n : ℚ) / 10 ^ 18

/-- Embeds `Web3.from_wei(n, 'gwei')`: wei to gwei. -/
def weiToGwei (n : ℕ) : ℚ := (n : ℚ) / 10 ^ 9

/-- Embeds `CircuitBreaker.trigger_breaker`: set the triggered flag and record the
reason. -/
def triggerBreaker (reason : String) (s : CBState) : CBState :=
  { s with triggered := true, triggerReason := some reason }

/-- Embeds `CircuitBreaker._check_position_size`: reject and trip the breaker when the
cumulative position size would exceed the cap. -/
def checkPositionSize (value : ℚ) (s : CBState) : CBState × Bool :=
  if s.currentSize + value > s.maxPositionSize then
    (triggerBreaker "Position size limit exceeded" s, false)
  else (s, true)

/-- Embeds `CircuitBreaker._check_gas_limits`: trip on a gas price above the ceiling
or on a daily gas spend that would exceed the cap; otherwise add this
transaction's gas cost (in ether) to the daily spend. -/
def checkGasLimits (gasPrice gas : ℚ) (s : CBState) : CBState × Bool :=
  if gasPrice > s.maxGasPriceGwei then
    (triggerBreaker "Gas price too high" s, false)
  else
    let gasCost := gasPrice * gas / 1000000000
    if s.currentDailySpend + gasCost > s.maxDailyGasSpend then
      (triggerBreaker "Daily gas spend limit would be exceeded" s, false)
    else ({ s with currentDailySpend := s.currentDailySpend + gasCost }, true)

/-- Embeds `CircuitBreaker._check_tx_rate`: drop expired timestamps, then reject (with
only a log line, no `trigger_breaker` call) when the window is full. -/
def checkTxRate (now : ℚ) (s : CBState) : CBState × Bool :=
  let kept := s.txTimestamps.filter (fun t => now - t ≤ s.txWindow)
  ({ s with txTimestamps := kept }, decide (kept.length < s.maxTxPerWindow))

/-- Embeds `CircuitBreaker._check_profit_threshold`: trip when the expected profit is
below the configured floor. -/
def checkProfitThreshold (expectedProfit : ℚ) (s : CBState) : CBState × Bool :=
  if expectedProfit < s.minProfitThreshold then
    (triggerBreaker "Profit below minimum threshold" s, false)
  else (s, true)

/-- Embeds `CircuitBreaker._check_slippage`: trip when the relative slippage exceeds
the cap.  A zero expected price raises a division-by-zero exception in Python,
caught by `validate_transaction`'s `except` clause; that path is modelled by
the result `none`. -/
def checkSlippage (expectedPrice actualPrice : ℚ) (s : CBState) :
    CBState × Option Bool :=
  if expectedPrice = 0 then (s, none)
  else
    let slippage := |actualPrice - expectedPrice| / expectedPrice
    if slippage > s.maxSlippage then
      (triggerBreaker "Slippage too high" s, some false)
    else (s, some true)

/-- Embeds `CircuitBreaker._check_system_health`: on the metrics-reset interval, zero
the daily counters and the rate window but preserve the breaker state; else on
the health-check interval, re-check the position, daily-loss and gas-spend
conditions against the current counters. -/
def checkSystemHealth (now : ℚ) (s : CBState) : CBState :=
  if now - s.lastMetricsReset ≥ s.metricsResetInterval then
    { s with currentSize := 0, currentDailySpend := 0, currentDailyPnl := 0,
             txTimestamps := [], lastMetricsReset := now }
  else if now - s.lastHealthCheck ≥ s.healthCheckInterval then
    let s1 := if s.currentSize > s.maxPositionSize then
      triggerBreaker "Position limit exceeded" s else s
    let s2 := if s1.currentDailyPnl ≤ -s1.maxDailyLoss then
      triggerBreaker "Maximum daily loss exceeded" s1 else s1
    let s3 := if s2.currentDailySpend > s2.maxDailyGasSpend then
      triggerBreaker "Daily gas spend limit exceeded" s2 else s2
    { s3 with lastHealthCheck := now }
  else s

/-- Embeds `CircuitBreaker.validate_transaction`: the full validation pipeline.  The
Boolean result is the return value; the state carries all mutations performed
before returning, including those preceding an early `return False` or a
caught exception. -/
def validateTransaction (now : ℚ) (tx : Tx) (s : CBState) : CBState × Bool :=
  if !s.enabled then (s, false)
  else
    let s0 := checkSystemHealth now s
    if s0.triggered then (s0, false)
    else
      match tx.value with
      | none => (s0, false)
      | some valueWei =>
        let value := weiToEther valueWei
        let gasPrice := match tx.gasPrice with
          | some g => weiToGwei g
          | none => 0
        let gas : ℚ := ((tx.gas.getD 21000 : ℕ) : ℚ)
        let expectedProfit := weiToEther (tx.expectedProfit.getD 0)
        let (s1, ok1) := checkPositionSize value s0
        if !ok1 then (s1, false)
        else
          let (s2, ok2) := checkGasLimits gasPrice gas s1
          if !ok2 then (s2, false)
          else
            let (s3, ok3) := checkTxRate now s2
            if !ok3 then (s3, false)
            else
              let (s4, ok4) := checkProfitThreshold expectedProfit s3
              if !ok4 then (s4, false)
              else
                let afterSlip : CBState × Bool :=
                  match tx.expectedPrice, tx.actualPrice with
                  | some e, some a =>
                    match checkSlippage (weiToEther e) (weiToEther a) s4 with
                    | (s5, none) => (s5, false)
                    | (s5, some b) => (s5, b)
                  | _, _ => (s4, true)
                let (s5, ok5) := afterSlip
                if !ok5 then (s5, false)
                else
                  ({ s5 with txTimestamps := s5.txTimestamps ++ [now],
                             currentSize := s5.currentSize + value }, true)

/-- Embeds `CircuitBreaker.record_profit_loss`: accumulate PnL and trip the breaker
when the rolling daily loss reaches the cap. -/
def recordProfitLoss (amount : ℚ) (s : CBState) : CBState :=
  let s' := { s with currentDailyPnl := s.currentDailyPnl + amount }
  if s'.currentDailyPnl ≤ -s'.maxDailyLoss then
    triggerBreaker "Maximum daily loss exceeded" s'
  else s'

/-- Embeds `CircuitBreaker.reset_breaker`: clear the triggered flag and its reason and
zero all rolling counters. -/
def resetBreaker (now : ℚ) (s : CBState) : CBState :=
  { s with triggered := false, triggerReason := none, txTimestamps := [],
           currentSize := 0, currentDailySpend := 0, currentDailyPnl := 0,
           lastMetricsReset := now }

/-! ### Safety coordinator (`src/mevbot/core/safety/coordinator.py`) -/

/-- Embeds `SafetyCoordinator._validate_contract_interaction`, decision on one
transaction: a transaction with a non-null `to` address passes only when that
address is a member of the configured `contract_whitelist` list. -/
def validateContractInteraction (whitelist : List String)
    (toAddr : Option String) : Bool :=
  match toAddr with
  | none => true
  | some addr => whitelist.contains addr

/-- Emergency severity levels of
`src/mevbot/core/safety/emergency_manager.py`. -/
inductive EmergencyLevel where
  | info
  | warning
  | critical
  | fatal
  deriving Repr, DecidableEq

/-- Numeric weights assigned by `SafetyCoordinator._update_risk_level`. -/
def levelWeight : EmergencyLevel → ℕ
  | .info => 1
  | .warning => 2
  | .critical => 3
  | .fatal => 4

/-- Embeds `SafetyCoordinator._update_risk_level`: overwrite
`metrics.current_risk_level` from the weight of the incident just recorded.
The previous level is not consulted. -/
def updateRiskLevel (incidentLevel : EmergencyLevel) (_prev : String) : String :=
  if levelWeight incidentLevel ≥ 3 then "HIGH"
  else if levelWeight incidentLevel = 2 then "MEDIUM"
  else "LOW"

/-- Risk level reached after `SafetyCoordinator.record_incident` has been
called once per element of `history`, in order, starting from the
initial `SafetyMetrics.current_risk_level = "LOW"`. -/
def riskAfter (history : List EmergencyLevel) : String :=
  history.foldl (fun level incident => updateRiskLevel incident level) "LOW"

/-- Modelled from the spec (claim wording), for comparison with `riskAfter`:
HIGH if any incident in the history is CRITICAL or FATAL, MEDIUM if some
incident is WARNING and none is CRITICAL or FATAL, LOW otherwise. -/
def claimedRisk (history : List EmergencyLevel) : String :=
  if history.any (fun l => l = .critical ∨ l = .fatal) then "HIGH"
  else if history.any (fun l => l = .warning) then "MEDIUM"
  else "LOW"

/-! ### Flash-loan provider selection (`src/mevbot/core/flash_loan.py`) -/

/-- Flash-loan venues, in the insertion order of the `self.providers`
dictionary built in `FlashLoanManager.__init__` (`AAVE_V3`, `DYDX`,
`BALANCER`, `UNISWAP_V3`). -/
inductive Provider where
  | aaveV3
  | dydx
  | balancer
  | uniswapV3
  deriving Repr, DecidableEq

/-- Iteration order of `for provider in self.providers`. -/
def providerOrder : List Provider := [.aaveV3, .dydx, .balancer, .uniswapV3]

/-- Position of a venue in the dictionary iteration order. -/
def providerIdx : Provider → ℕ
  | .aaveV3 => 0
  | .dydx => 1
  | .balancer => 2
  | .uniswapV3 => 3

/-- Fee fraction charged by each venue, per the literals in
`FlashLoanManager._get_provider_fee` (0.09%, 0, 0.01%, 0.05%). -/
def feeFraction : Provider → ℚ
  | .aaveV3 => 9 / 10000
  | .dydx => 0
  | .balancer => 1 / 10000
  | .uniswapV3 => 5 / 10000

/-- Embeds `FlashLoanManager._get_provider_fee`: absolute fee for borrowing `amount`
from venue `p`. -/
def providerFee (p : Provider) (amount : ℕ) : ℚ := (amount : ℚ) * feeFraction p

/-- Snapshot consumed by `get_optimal_provider`: whether the provider contract
initialized (truthiness of `self.providers[provider]`) and the liquidity
reported by `_get_provider_liquidity` (`none` models a `None` return). -/
structure ProviderSnapshot where
  contractOk : Provider → Bool
  liquidity : Provider → Option ℕ

/-- Guard sequence of the loop body of `get_optimal_provider`: the provider is
skipped unless its contract is initialized, its liquidity is known, and the
liquidity is at least the requested amount.  (`_get_provider_fee` never
returns `None` for the four known venues, so the `fee is None` skip never
fires.) -/
def qualifies (snap : ProviderSnapshot) (amount : ℕ) (p : Provider) : Bool :=
  snap.contractOk p && match snap.liquidity p with
    | none => false
    | some l => decide (amount ≤ l)

/-- Loop body of `FlashLoanManager.get_optimal_provider`: keep the running
best provider, replacing it only on a strictly lower fee. -/
def selectStep (snap : ProviderSnapshot) (amount : ℕ)
    (best : Option (Provider × ℚ)) (p : Provider) : Option (Provider × ℚ) :=
  if qualifies snap amount p then
    match best with
    | none => some (p, providerFee p amount)
    | some (b, bf) =>
      if providerFee p amount < bf then some (p, providerFee p amount)
      else some (b, bf)
  else best

/-- Embeds `FlashLoanManager.get_optimal_provider`: iterate the provider table in
insertion order, tracking the lowest-fee qualified provider. -/
def getOptimalProvider (snap : ProviderSnapshot) (amount : ℕ) :
    Option Provider :=
  (providerOrder.foldl (selectStep snap amount) none).map Prod.fst

/-- Alphabetical rank of the venue identifier strings
`"aave_v3" < "balancer" < "dydx" < "uniswap_v3"`. -/
def alphaRank : Provider → ℕ
  | .aaveV3 => 0
  | .balancer => 1
  | .dydx => 2
  | .uniswapV3 => 3

/-- Modelled from the spec (claim wording), for comparison with
`getOptimalProvider`: among qualified providers, minimize the absolute fee,
break ties by lower fee fraction, then by alphabetic venue identifier. -/
def claimedSelect (snap : ProviderSnapshot) (amount : ℕ) : Option Provider :=
  (providerOrder.filter (qualifies snap amount)).foldl
    (fun best p =>
      match best with
      | none => some p
      | some b =>
        if providerFee p amount < providerFee b amount then some p
        else if providerFee p amount = providerFee b amount ∧
            (feeFraction p < feeFraction b ∨
              (feeFraction p = feeFraction b ∧ alphaRank p < alphaRank b)) then
          some p
        else best) none

/-! ### Math utilities (`src/mevbot/core/utils/math.py`) -/

/-- Python `int(...)` applied to an exact rational: truncation toward zero. -/
def pyInt (q : ℚ) : ℤ := if 0 ≤ q then ⌊q⌋ else ⌈q⌉

/-- Index and value computed by `np.argmax`: the first index holding the
maximum value together with that maximum, `none` on an empty array (where
`np.argmax` raises). -/
def argmaxPair : List ℚ → Option (ℕ × ℚ)
  | [] => none
  | x :: xs =>
    match argmaxPair xs with
    | none => some (0, x)
    | some (j, m) => if x < m then some (j + 1, m) else some (0, x)

/-- Index computed by `np.argmax`. -/
def argmaxIdx (l : List ℚ) : Option ℕ := (argmaxPair l).map Prod.fst

/-- Embeds `optimize_gas_vectorized` from `core/utils/math.py`: after validating that
no gas price is negative and every success rate lies in `[0, 1]`, return the
gas price at the first index of maximal success rate, truncated to an integer.
`none` models the raised `ValueError` (validation failure) or the `np.argmax`
/ indexing error on empty or mismatched inputs.  There is no weighting, no
1.1 safety factor and no clamping in this routine. -/
def optimizeGasVectorized (gasPrices successRates : List ℚ) : Option ℤ :=
  if gasPrices.any (fun g => g < 0) then none
  else if successRates.any (fun r => r < 0 ∨ 1 < r) then none
  else
    match argmaxIdx successRates with
    | none => none
    | some i => (gasPrices[i]?).map pyInt

/-- Modelled from the spec (claim wording), for comparison with
`optimizeGasVectorized`: `int(Σ gp_i·w_i · 1.1)` clamped to
`[21000, 500000]`. -/
def claimedGasTip (gasPrices successRates : List ℚ) : ℤ :=
  max 21000
    (min (pyInt ((List.zipWith (fun g w => g * w) gasPrices successRates).sum
      * (11 / 10))) 500000)

/-! ### Mempool manager (`src/mevbot/core/mempool.py`) -/

/-- Fields of the `Transaction` dataclass needed by the indexing claims. -/
structure PendingRecord where
  hash : String
  toAddress : Option String
  inputData : List ℕ
  timestamp : ℚ
  deriving Repr, DecidableEq

/-- State of a `MempoolManager`: the primary `pending_txs` table (an
association list with unique keys, modelling the dict) and the two secondary
indices mapping a tag to the set of indexed hashes. -/
structure MempoolState where
  pendingTxs : List (String × PendingRecord)
  indexByProtocol : List (String × List String)
  indexByToken : List (String × List String)
  enableCustomIndexing : Bool
  deriving Repr, DecidableEq

/-- Embeds `MempoolManager._identify_protocol`: a placeholder in the source; it
always returns `None`. -/
def identifyProtocol (_inputData : List ℕ) : Option String := none

/-- Embeds `MempoolManager._identify_token`: a placeholder in the source; it always
returns `None`. -/
def identifyToken (_addr : Option String) : Option String := none

/-- Insert `h` into the hash set stored under `tag`
(`dict.setdefault(tag, set()).add(h)`). -/
def indexInsert (tag : String) (h : String)
    (idx : List (String × List String)) : List (String × List String) :=
  match idx.lookup tag with
  | none => idx ++ [(tag, [h])]
  | some hs =>
    idx.map (fun p => if p.1 = tag then (tag, if hs.contains h then hs else hs ++ [h]) else p)

/-- Embeds `MempoolManager._update_indexes`: index the transaction under its decoded
protocol tag and its routed token, when either is identified. -/
def updateIndexes (tx : PendingRecord) (s : MempoolState) : MempoolState :=
  let s1 := match identifyProtocol tx.inputData with
    | none => s
    | some tag => { s with indexByProtocol := indexInsert tag tx.hash s.indexByProtocol }
  match identifyToken tx.toAddress with
  | none => s1
  | some tag => { s1 with indexByToken := indexInsert tag tx.hash s1.indexByToken }

/-- Store step of `MempoolManager._process_transaction`: write the transaction
into `pending_txs`, then update the custom indices when enabled. -/
def processTransaction (tx : PendingRecord) (s : MempoolState) : MempoolState :=
  let s' := { s with
    pendingTxs := (s.pendingTxs.filter (fun p => p.1 ≠ tx.hash)) ++ [(tx.hash, tx)] }
  if s'.enableCustomIndexing then updateIndexes tx s' else s'

/-- Embeds `MempoolManager._remove_transaction`: delete the entry from the primary
table, then call `self._remove_from_indexes(tx_hash)` — a method that is not
defined anywhere in the repository, so in Python this call raises
`AttributeError` after the primary delete has already happened.  The raised
exception is modelled by a `some` error string in the second component. -/
def removeTransaction (txHash : String) (s : MempoolState) :
    MempoolState × Option String :=
  if s.pendingTxs.any (fun p => p.1 = txHash) then
    let s' := { s with pendingTxs := s.pendingTxs.filter (fun p => p.1 ≠ txHash) }
    if s'.enableCustomIndexing then
      (s', some "AttributeError: _remove_from_indexes is not defined")
    else (s', none)
  else (s, none)

/-- Consistency of the secondary indices with the primary table: every hash
stored in either index is a key of `pending_txs`. -/
def indicesConsistent (s : MempoolState) : Prop :=
  (∀ tag hs, (tag, hs) ∈ s.indexByProtocol → ∀ h ∈ hs,
    ∃ r, (h, r) ∈ s.pendingTxs) ∧
  (∀ tag hs, (tag, hs) ∈ s.indexByToken → ∀ h ∈ hs,
    ∃ r, (h, r) ∈ s.pendingTxs)

/-! ### SIMD numeric kernel (`src/mevbot/core/simd.py`) -/

/-- Scalar body of `SIMDProcessor.batch_price_impact`: the constant-product
impact `amount / (amount + liquidity)`, with `float64` arithmetic idealized
as exact rationals. -/
def priceImpact (amount liquidity : ℚ) : ℚ := amount / (amount + liquidity)

/-- Embeds `SIMDProcessor.batch_price_impact` on equal-length vectors. -/
def batchPriceImpact (amounts liquidities : List ℚ) : List ℚ :=
  List.zipWith priceImpact amounts liquidities

/-- Scalar body of `SIMDProcessor.batch_sandwich_optimization`: front amount
is 10% of the target amount; profit is the target times the impact of the
front amount, minus gas for the two legs. -/
def sandwichOptimization (targetAmount poolLiquidity gasPrice : ℚ) : ℚ × ℚ :=
  let optimal := targetAmount * (1 / 10)
  (optimal, targetAmount * priceImpact optimal poolLiquidity - gasPrice * 2)

/-! ### Sandwich strategy (`src/mevbot/strategies/sandwich.py`) -/

/-- Embeds `SandwichParams` dataclass (fields used by analysis and execution). -/
structure SandwichParams where
  targetTxHash : String
  token : String
  pool : String
  frontAmount : ℕ
  backAmount : ℕ
  expectedProfit : ℚ
  deriving Repr, DecidableEq

/-- Embeds `SandwichStrategy._get_pool_liquidity`: the source returns the dummy
constant `int(1e20)`. -/
def getPoolLiquidity : ℕ := 10 ^ 20

/-- Embeds `SandwichStrategy.analyze_opportunity`, given the extracted target value
(`int(target_tx.get('value', 0))`, in wei) and the gas price: run the
singleton `batch_sandwich_optimization`, decline on a zero target, zero
liquidity, zero front amount or non-positive profit, and set
`back_amount = int(front_amount * 1.02)` (the float literal 1.02 idealized as
51/50). -/
def analyzeOpportunity (targetTxHash token pool : String)
    (targetValue gasPrice : ℕ) : Option SandwichParams :=
  let liquidity := getPoolLiquidity
  if targetValue = 0 ∨ liquidity = 0 then none
  else
    let (optimal, profit) :=
      sandwichOptimization (targetValue : ℚ) (liquidity : ℚ) (gasPrice : ℚ)
    let front := (pyInt optimal).toNat
    if front = 0 ∨ profit ≤ 0 then none
    else
      some { targetTxHash := targetTxHash, token := token, pool := pool,
             frontAmount := front,
             backAmount := (pyInt ((front : ℚ) * (51 / 50))).toNat,
             expectedProfit := profit }

/-- Swap transaction dictionary built by `SandwichStrategy._create_swap_tx`. -/
structure SwapTx where
  toAddr : String
  value : ℕ
  gas : ℕ
  gasPrice : ℕ
  deriving Repr, DecidableEq

/-- Embeds `SandwichStrategy._create_swap_tx`. -/
def createSwapTx (pool : String) (amount : ℕ) (isBuy : Bool)
    (gasPrice : ℕ) : SwapTx :=
  { toAddr := pool, value := if isBuy then amount else 0, gas := 150000,
    gasPrice := gasPrice }

/-- Entry of a Flashbots bundle: either one of our own signed transactions or
the reference `{'hash': target_tx_hash}` to the unmined victim. -/
inductive BundleEntry where
  | ownTx (t : SwapTx)
  | victimRef (hash : String)
  deriving Repr, DecidableEq

/-- Bundle assembled by `SandwichStrategy.execute_sandwich` before
`flashbots.send_bundle`: front transaction, victim reference, back
transaction. -/
def executeSandwichBundle (p : SandwichParams) (gasPrice : ℕ) :
    List BundleEntry :=
  [BundleEntry.ownTx (createSwapTx p.pool p.frontAmount true gasPrice),
   BundleEntry.victimRef p.targetTxHash,
   BundleEntry.ownTx (createSwapTx p.pool p.backAmount false gasPrice)]

/-! ### Concrete sample data for witnesses and counterexamples -/

/-- Permissive circuit-breaker configuration state, not triggered. -/
def sampleState : CBState :=
  { enabled := true, triggered := false, triggerReason := none,
    maxPositionSize := 10, currentSize := 0,
    maxGasPriceGwei := 100, maxDailyGasSpend := 1, currentDailySpend := 0,
    minProfitThreshold := 1 / 100, maxDailyLoss := 1, currentDailyPnl := 0,
    txWindow := 60, maxTxPerWindow := 10, txTimestamps := [],
    maxSlippage := 1 / 100, lastHealthCheck := 0, lastMetricsReset := 0,
    metricsResetInterval := 86400, healthCheckInterval := 60 }

/-- Transaction with every optional field absent and a zero value. -/
def sampleTx : Tx :=
  { value := some 0, gasPrice := none, gas := none, expectedProfit := none,
    expectedPrice := none, actualPrice := none }

/-- Provider snapshot in which every venue contract is initialized and every
venue reports a liquidity of zero. -/
def snapAll : ProviderSnapshot :=
  { contractOk := fun _ => true, liquidity := fun _ => some 0 }

/-- Pending transaction record used for the mempool removal evaluation. -/
def sampleRecord : PendingRecord :=
  { hash := "0x11", toAddress := some "0xpool", inputData := [], timestamp := 0 }

/-- Mempool state holding exactly `sampleRecord`, with custom indexing enabled
as hard-coded in `MempoolManager.__init__`. -/
def sampleMempool : MempoolState :=
  { pendingTxs := [("0x11", sampleRecord)], indexByProtocol := [],
    indexByToken := [], enableCustomIndexing := true }

/-- Sandwich parameters produced by `analyze_opportunity` for a victim value
of 10 wei at the dummy pool liquidity and a zero gas price. -/
def sandwichW : SandwichParams :=
  { targetTxHash := "0xv", token := "tok", pool := "pool",
    frontAmount := 1, backAmount := 1,
    expectedProfit := 10 / (1 + 10 ^ 20) }

/-! ## Theorems -/

/-- C9: for fixed positive pool liquidity, the price-impact routine of
`SIMDProcessor.batch_price_impact` is monotone non-decreasing in the input
amount: for all amounts `0 ≤ a ≤ a'`, the computed impact at `a` is at most
the impact at `a'`. -/
theorem priceImpact_monotone (liquidity a a' : ℚ) (hL : 0 < liquidity)
    (ha : 0 ≤ a) (haa : a ≤ a') :
    priceImpact a liquidity ≤ priceImpact a' liquidity := by
  unfold priceImpact
  have h1 : 0 < a + liquidity := by linarith
  have h2 : 0 < a' + liquidity := by linarith
  rw [div_le_div_iff₀ h1 h2]
  nlinarith

/-- Witness for `priceImpact_monotone` at liquidity 4, amounts 1 and 2. -/
theorem priceImpact_monotone_witness :
    priceImpact 1 4 ≤ priceImpact 2 4 :=
  priceImpact_monotone 4 1 2 (by norm_num) (by norm_num) (by norm_num)

/-- C6 counterexample: recording an INFO incident after a CRITICAL one lowers
the derived risk level from HIGH to LOW, so the level is not the
claimed monotone projection of the incident history (which would yield HIGH
whenever any incident is CRITICAL). -/
theorem risk_level_cex :
    riskAfter [EmergencyLevel.critical] = "HIGH" ∧
    riskAfter [EmergencyLevel.critical, EmergencyLevel.info] = "LOW" ∧
    claimedRisk [EmergencyLevel.critical, EmergencyLevel.info] = "HIGH" ∧
    ("LOW" : String) ≠ "HIGH" := by
  refine ⟨rfl, rfl, rfl, by decide⟩

/-- C6 amended: the derived risk level after a sequence of recorded incidents
is a pure function of the last incident alone — HIGH if it is CRITICAL or
FATAL, MEDIUM if it is WARNING, and LOW if it is INFO; consequently replaying
the history reproduces the terminal level, but the level is not monotone. -/
theorem risk_level_last_incident (history : List EmergencyLevel)
    (lvl : EmergencyLevel) :
    riskAfter (history ++ [lvl]) = riskAfter [lvl] ∧
    riskAfter [lvl] =
      (if lvl = .critical ∨ lvl = .fatal then "HIGH"
       else if lvl = .warning then "MEDIUM" else "LOW") := by
  constructor
  · unfold riskAfter
    rw [List.foldl_append]
    cases lvl <;> rfl
  · cases lvl <;> rfl

/-- C3: with an empty configured `contract_whitelist`, the whitelist check of
`SafetyCoordinator._validate_contract_interaction` rejects every transaction
that carries a non-null `to` address — the empty list does not disable the
check as the specification states; it blocks all contract interactions. -/
theorem empty_whitelist_rejects (addr : String) :
    validateContractInteraction [] (some addr) = false := by
  rfl

/-- C7: `MempoolManager._remove_transaction` on a state holding one pending
transaction (with custom indexing enabled, as `__init__` hard-codes) deletes
the entry from the primary table and then raises `AttributeError`, because the
`_remove_from_indexes` method it calls is not defined anywhere in the
repository; the removal operation never completes normally. -/
theorem removeTransaction_attribute_error :
    removeTransaction "0x11" sampleMempool =
      ({ sampleMempool with pendingTxs := [] },
        some "AttributeError: _remove_from_indexes is not defined") ∧
    (removeTransaction "0x11" sampleMempool).1.pendingTxs.lookup "0x11"
      = none := by
  refine ⟨?_, rfl⟩
  rfl

/-- Truncating a natural number scaled by 51/50 agrees with natural floor
division: this is `int(front_amount * 1.02)`. -/
theorem pyInt_mul_ratio (n : ℕ) :
    (pyInt ((n : ℚ) * (51 / 50))).toNat = n * 51 / 50 := by
  have h0 : (0 : ℚ) ≤ (n : ℚ) * (51 / 50) := by positivity
  rw [pyInt, if_pos h0, Int.floor_toNat]
  have hcast : (n : ℚ) * (51 / 50) = ((n * 51 : ℕ) : ℚ) / ((50 : ℕ) : ℚ) := by
    push_cast
    ring
  rw [hcast, Nat.floor_div_nat, Nat.floor_natCast]

/-- C8: every sandwich opportunity that `analyze_opportunity` emits is
executed by `execute_sandwich` as a bundle of exactly the shape
[own front transaction, victim reference, own back transaction], and the back
amount equals the front amount multiplied by 1.02 and truncated to an
integer. -/
theorem sandwich_bundle_shape (h tkn pl : String) (tv gp gp2 : ℕ)
    (p : SandwichParams) (hp : analyzeOpportunity h tkn pl tv gp = some p) :
    executeSandwichBundle p gp2 =
      [BundleEntry.ownTx
        { toAddr := p.pool, value := p.frontAmount, gas := 150000,
          gasPrice := gp2 },
       BundleEntry.victimRef p.targetTxHash,
       BundleEntry.ownTx
        { toAddr := p.pool, value := 0, gas := 150000, gasPrice := gp2 }] ∧
    p.backAmount = (pyInt ((p.frontAmount : ℚ) * (51 / 50))).toNat ∧
    p.backAmount = p.frontAmount * 51 / 50 := by
  have hback : p.backAmount = (pyInt ((p.frontAmount : ℚ) * (51 / 50))).toNat := by
    simp only [analyzeOpportunity, sandwichOptimization] at hp
    split at hp
    · exact absurd hp (by simp)
    · split at hp
      · exact absurd hp (by simp)
      · obtain rfl := Option.some.inj hp
        rfl
  exact ⟨rfl, hback, hback.trans (pyInt_mul_ratio p.frontAmount)⟩

/-- Witness for `sandwich_bundle_shape`: a 10-wei victim at gas price 0. -/
theorem sandwich_bundle_shape_witness :
    analyzeOpportunity "0xv" "tok" "pool" 10 0 = some sandwichW ∧
    sandwichW.backAmount = sandwichW.frontAmount * 51 / 50 := by
  have hp : analyzeOpportunity "0xv" "tok" "pool" 10 0 = some sandwichW := by
    rw [analyzeOpportunity]
    norm_num [sandwichOptimization, priceImpact, getPoolLiquidity, pyInt,
      sandwichW]
  exact ⟨hp, (sandwich_bundle_shape "0xv" "tok" "pool" 10 0 7 sandwichW hp).2.2⟩

/-- C5 counterexample: on gas prices `[100, 40000]` with success rates
`[1, 1/2]`, `optimize_gas_vectorized` from `core/utils/math.py` returns 100 —
the gas price at the index of the highest success rate — not the claimed
weighted value `int((100·1 + 40000·(1/2))·1.1) = 22110`, and the result is
not clamped to `[21000, 500000]`. -/
theorem optimizeGas_cex :
    optimizeGasVectorized [100, 40000] [1, 1 / 2] = some 100 ∧
    claimedGasTip [100, 40000] [1, 1 / 2] = 22110 ∧
    ¬ (21000 ≤ (100 : ℤ)) := by
  refine ⟨?_, ?_, by norm_num⟩
  · norm_num [optimizeGasVectorized, argmaxIdx, argmaxPair, pyInt]
  · norm_num [claimedGasTip, pyInt]

/-- Helper: `np.argmax` yields `none` exactly on the empty array. -/
theorem argmaxPair_eq_none (l : List ℚ) : argmaxPair l = none ↔ l = [] := by
  cases l with
  | nil => simp [argmaxPair]
  | cons x xs =>
    simp only [argmaxPair]
    cases h : argmaxPair xs with
    | none => simp
    | some p =>
      obtain ⟨j, m⟩ := p
      by_cases hx : x < m <;> simp [hx]

/-- Helper: the pair returned by `np.argmax` is an element of the array and an
upper bound of all its elements. -/
theorem argmaxPair_spec (l : List ℚ) (i : ℕ) (m : ℚ)
    (h : argmaxPair l = some (i, m)) :
    l[i]? = some m ∧ ∀ (j : ℕ) (x : ℚ), l[j]? = some x → x ≤ m := by
  induction l generalizing i m with
  | nil => simp [argmaxPair] at h
  | cons a as ih =>
    rw [argmaxPair] at h
    cases hA : argmaxPair as with
    | none =>
      rw [hA] at h
      dsimp only at h
      obtain ⟨hi, hm⟩ := Prod.mk.injEq .. ▸ Option.some.inj h
      subst hi; subst hm
      have has : as = [] := (argmaxPair_eq_none as).mp hA
      subst has
      refine ⟨by simp, ?_⟩
      intro j x hj
      cases j with
      | zero => simp at hj; simp [hj]
      | succ n => simp at hj
    | some p =>
      obtain ⟨j0, m0⟩ := p
      rw [hA] at h
      dsimp only at h
      obtain ⟨hget, hub⟩ := ih j0 m0 hA
      by_cases hlt : a < m0
      · rw [if_pos hlt] at h
        obtain ⟨hi, hm⟩ := Prod.mk.injEq .. ▸ Option.some.inj h
        subst hi; subst hm
        refine ⟨by simpa using hget, ?_⟩
        intro j x hj
        cases j with
        | zero =>
          simp at hj
          exact hj ▸ le_of_lt hlt
        | succ n => exact hub n x (by simpa using hj)
      · rw [if_neg hlt] at h
        obtain ⟨hi, hm⟩ := Prod.mk.injEq .. ▸ Option.some.inj h
        subst hi; subst hm
        refine ⟨by simp, ?_⟩
        intro j x hj
        cases j with
        | zero => simp at hj; simp [hj]
        | succ n =>
          have := hub n x (by simpa using hj)
          exact le_trans this (not_lt.mp hlt)

/-- C5 amended: on valid inputs (non-negative gas prices, success rates in
`[0, 1]`, non-empty rates vector no longer than the prices vector), the
`core/utils/math.py` routine returns the truncated gas price at the first
index of maximal success rate; it performs no weighting, no 1.1 safety
multiplication, and no clamping. -/
theorem optimizeGas_argmax (gps rates : List ℚ)
    (hg : ∀ g ∈ gps, 0 ≤ g) (hr : ∀ r ∈ rates, 0 ≤ r ∧ r ≤ 1)
    (hne : rates ≠ []) (hlen : rates.length ≤ gps.length) :
    ∃ (i : ℕ) (m g : ℚ), argmaxIdx rates = some i ∧ rates[i]? = some m ∧
      gps[i]? = some g ∧
      optimizeGasVectorized gps rates = some (pyInt g) ∧
      ∀ (j : ℕ) (x : ℚ), rates[j]? = some x → x ≤ m := by
  cases hA : argmaxPair rates with
  | none => exact absurd ((argmaxPair_eq_none rates).mp hA) hne
  | some p =>
    obtain ⟨i, m⟩ := p
    obtain ⟨hget, hub⟩ := argmaxPair_spec rates i m hA
    have hi : i < rates.length := by
      by_contra hc
      rw [List.getElem?_eq_none (le_of_not_lt hc)] at hget
      exact Option.noConfusion hget
    have hig : i < gps.length := lt_of_lt_of_le hi hlen
    have h1 : gps.any (fun g => decide (g < 0)) = false := by
      rw [List.any_eq_false]
      intro x hx
      simpa using not_lt.mpr (hg x hx)
    have h2 : rates.any (fun r => decide (r < 0 ∨ 1 < r)) = false := by
      rw [List.any_eq_false]
      intro x hx
      obtain ⟨hx0, hx1⟩ := hr x hx
      simp [not_lt.mpr hx0, not_lt.mpr hx1]
    have hIdx : argmaxIdx rates = some i := by rw [argmaxIdx, hA]; rfl
    refine ⟨i, m, gps[i], hIdx, hget, List.getElem?_eq_getElem hig, ?_, hub⟩
    rw [optimizeGasVectorized]
    simp only [h1, h2, Bool.false_eq_true, if_false, hIdx]
    rw [List.getElem?_eq_getElem hig]
    rfl

/-- Witness for `optimizeGas_argmax` on gas prices `[40, 50]` and success
rates `[1/2, 1]`. -/
theorem optimizeGas_argmax_witness :
    ∃ (i : ℕ) (m g : ℚ), argmaxIdx [1 / 2, 1] = some i ∧
      ([1 / 2, 1] : List ℚ)[i]? = some m ∧
      ([40, 50] : List ℚ)[i]? = some g ∧
      optimizeGasVectorized [40, 50] [1 / 2, 1] = some (pyInt g) ∧
      ∀ (j : ℕ) (x : ℚ), ([1 / 2, 1] : List ℚ)[j]? = some x → x ≤ m :=
  optimizeGas_argmax [40, 50] [1 / 2, 1]
    (by intro g hg; fin_cases hg <;> norm_num)
    (by intro r hr; fin_cases hr <;> norm_num)
    (by simp) (by simp)


/-- Helper: the health check never clears a triggered breaker (the daily
metrics reset explicitly preserves the breaker state). -/
theorem checkSystemHealth_triggered (now : ℚ) (s : CBState)
    (h : s.triggered = true) : (checkSystemHealth now s).triggered = true := by
  unfold checkSystemHealth
  split
  · simpa using h
  · split
    · dsimp only
      split_ifs <;> simp [triggerBreaker, h]
    · exact h

/-- Helper: a triggered breaker makes `validate_transaction` return `False`
and remain triggered. -/
theorem validate_gated (now : ℚ) (tx : Tx) (s : CBState)
    (h : s.triggered = true) :
    (validateTransaction now tx s).2 = false ∧
    (validateTransaction now tx s).1.triggered = true := by
  cases he : s.enabled with
  | false => simp [validateTransaction, he, h]
  | true =>
    have h0 : (checkSystemHealth now s).triggered = true :=
      checkSystemHealth_triggered now s h
    simp [validateTransaction, he, h0]

/-- C1: once the circuit breaker is in the triggered state, every call to
`validate_transaction` returns `False` and leaves the breaker triggered, until
`reset_breaker` is called, which clears the triggered state and its reason. -/
theorem breaker_triggered_blocks_until_reset (now now2 : ℚ) (tx : Tx)
    (s : CBState) (h : s.triggered = true) :
    (validateTransaction now tx s).2 = false ∧
    (validateTransaction now tx s).1.triggered = true ∧
    (resetBreaker now2 s).triggered = false ∧
    (resetBreaker now2 s).triggerReason = none :=
  ⟨(validate_gated now tx s h).1, (validate_gated now tx s h).2, rfl, rfl⟩

/-- Witness for `breaker_triggered_blocks_until_reset` at a concrete
triggered state. -/
theorem breaker_triggered_blocks_witness :
    (validateTransaction 1 sampleTx { sampleState with triggered := true }).2
      = false ∧
    (validateTransaction 1 sampleTx
      { sampleState with triggered := true }).1.triggered = true ∧
    (resetBreaker 2 { sampleState with triggered := true }).triggered = false ∧
    (resetBreaker 2 { sampleState with triggered := true }).triggerReason
      = none :=
  breaker_triggered_blocks_until_reset 1 2 sampleTx
    { sampleState with triggered := true } rfl

/-- C2 counterexample: with a full rate window (`max_tx_per_window = 0`), the
tx-rate condition is met during `validate_transaction` and the call returns
`False`, yet the breaker does not enter the triggered state and no reason is
recorded — `_check_tx_rate` never calls `trigger_breaker`. -/
theorem txRate_no_trigger_cex :
    (validateTransaction 1 sampleTx { sampleState with maxTxPerWindow := 0 }).2
      = false ∧
    (validateTransaction 1 sampleTx
      { sampleState with maxTxPerWindow := 0 }).1.triggered = false ∧
    (validateTransaction 1 sampleTx
      { sampleState with maxTxPerWindow := 0 }).1.triggerReason = none := by
  norm_num [validateTransaction, checkSystemHealth, checkPositionSize,
    checkGasLimits, checkTxRate, checkProfitThreshold, weiToEther, weiToGwei,
    sampleState, sampleTx]

/-- C2 amended: the position-size, gas-price, daily-gas, min-profit and
slippage checks of `validate_transaction` each set the global triggered state
with a reason string when their condition is met, and the daily-loss breaker
does so in `record_profit_loss`; the tx-rate check, however, only rejects the
transaction and never changes the triggered state or reason; once triggered,
`validate_transaction` fails until an explicit reset. -/
theorem breaker_trigger_semantics :
    (∀ (v : ℚ) (s : CBState), s.currentSize + v > s.maxPositionSize →
      checkPositionSize v s =
        ({ s with
            triggered := true,
            triggerReason := some "Position size limit exceeded" }, false)) ∧
    (∀ (gp g : ℚ) (s : CBState), gp > s.maxGasPriceGwei →
      checkGasLimits gp g s =
        ({ s with
            triggered := true,
            triggerReason := some "Gas price too high" }, false)) ∧
    (∀ (gp g : ℚ) (s : CBState), gp ≤ s.maxGasPriceGwei →
      s.currentDailySpend + gp * g / 1000000000 > s.maxDailyGasSpend →
      checkGasLimits gp g s =
        ({ s with
            triggered := true,
            triggerReason :=
              some "Daily gas spend limit would be exceeded" }, false)) ∧
    (∀ (p : ℚ) (s : CBState), p < s.minProfitThreshold →
      checkProfitThreshold p s =
        ({ s with
            triggered := true,
            triggerReason := some "Profit below minimum threshold" }, false)) ∧
    (∀ (e a : ℚ) (s : CBState), e ≠ 0 → |a - e| / e > s.maxSlippage →
      checkSlippage e a s =
        ({ s with
            triggered := true,
            triggerReason := some "Slippage too high" }, some false)) ∧
    (∀ (amt : ℚ) (s : CBState), s.currentDailyPnl + amt ≤ -s.maxDailyLoss →
      recordProfitLoss amt s =
        { s with
            currentDailyPnl := s.currentDailyPnl + amt,
            triggered := true,
            triggerReason := some "Maximum daily loss exceeded" }) ∧
    (∀ (now : ℚ) (s : CBState),
      (checkTxRate now s).1.triggered = s.triggered ∧
      (checkTxRate now s).1.triggerReason = s.triggerReason) ∧
    (∀ (now : ℚ) (tx : Tx) (s : CBState), s.triggered = true →
      (validateTransaction now tx s).2 = false) := by
  refine ⟨?_, ?_, ?_, ?_, ?_, ?_, ?_, ?_⟩
  · intro v s h
    rw [checkPositionSize, if_pos h]
    rfl
  · intro gp g s h
    rw [checkGasLimits, if_pos h]
    rfl
  · intro gp g s h1 h2
    rw [checkGasLimits, if_neg (not_lt.mpr h1)]
    dsimp only
    rw [if_pos h2]
    rfl
  · intro p s h
    rw [checkProfitThreshold, if_pos h]
    rfl
  · intro e a s h1 h2
    rw [checkSlippage, if_neg h1]
    dsimp only
    rw [if_pos h2]
    rfl
  · intro amt s h
    rw [recordProfitLoss]
    dsimp only
    rw [if_pos h]
    rfl
  · intro now s
    exact ⟨rfl, rfl⟩
  · intro now tx s h
    exact (validate_gated now tx s h).1

/-- Witness for `breaker_trigger_semantics`, instantiating every conjunct at
a concrete configuration. -/
theorem breaker_trigger_semantics_witness :
    checkPositionSize 11 sampleState =
      ({ sampleState with
          triggered := true,
          triggerReason := some "Position size limit exceeded" }, false) ∧
    checkGasLimits 200 1 sampleState =
      ({ sampleState with
          triggered := true,
          triggerReason := some "Gas price too high" }, false) ∧
    checkGasLimits 100 (10 ^ 11) sampleState =
      ({ sampleState with
          triggered := true,
          triggerReason :=
            some "Daily gas spend limit would be exceeded" }, false) ∧
    checkProfitThreshold 0 sampleState =
      ({ sampleState with
          triggered := true,
          triggerReason := some "Profit below minimum threshold" }, false) ∧
    checkSlippage 1 2 sampleState =
      ({ sampleState with
          triggered := true,
          triggerReason := some "Slippage too high" }, some false) ∧
    recordProfitLoss (-2) sampleState =
      { sampleState with
          currentDailyPnl := sampleState.currentDailyPnl + (-2),
          triggered := true,
          triggerReason := some "Maximum daily loss exceeded" } ∧
    ((checkTxRate 1 sampleState).1.triggered = sampleState.triggered ∧
      (checkTxRate 1 sampleState).1.triggerReason
        = sampleState.triggerReason) ∧
    (validateTransaction 1 sampleTx
      { sampleState with triggered := true }).2 = false := by
  obtain ⟨hA, hB, hC, hD, hE, hF, hG, hH⟩ := breaker_trigger_semantics
  exact ⟨hA 11 sampleState (by norm_num [sampleState]),
    hB 200 1 sampleState (by norm_num [sampleState]),
    hC 100 (10 ^ 11) sampleState (by norm_num [sampleState])
      (by norm_num [sampleState]),
    hD 0 sampleState (by norm_num [sampleState]),
    hE 1 2 sampleState (by norm_num) (by norm_num [sampleState]),
    hF (-2) sampleState (by norm_num [sampleState]),
    hG 1 sampleState,
    hH 1 sampleTx { sampleState with triggered := true } rfl⟩

/-- Helper: on the path where the gas check passes and the profit check then
fails, `validate_transaction` returns `False` with the daily gas spend
already increased and the position size untouched. -/
theorem validate_gas_spend_path (now : ℚ) (s : CBState) (v gp g : ℕ)
    (h1 : s.enabled = true) (h2 : s.triggered = false)
    (h3 : now - s.lastMetricsReset < s.metricsResetInterval)
    (h4 : now - s.lastHealthCheck < s.healthCheckInterval)
    (h5 : s.currentSize + weiToEther v ≤ s.maxPositionSize)
    (h6 : weiToGwei gp ≤ s.maxGasPriceGwei)
    (h7 : s.currentDailySpend + weiToGwei gp * (g : ℚ) / 1000000000
      ≤ s.maxDailyGasSpend)
    (h8 : 0 < s.minProfitThreshold) :
    (validateTransaction now
        { value := some v, gasPrice := some gp, gas := some g,
          expectedProfit := none, expectedPrice := none,
          actualPrice := none } s).2 = false ∧
    (validateTransaction now
        { value := some v, gasPrice := some gp, gas := some g,
          expectedProfit := none, expectedPrice := none,
          actualPrice := none } s).1.currentDailySpend
      = s.currentDailySpend + weiToGwei gp * (g : ℚ) / 1000000000 ∧
    (validateTransaction now
        { value := some v, gasPrice := some gp, gas := some g,
          expectedProfit := none, expectedPrice := none,
          actualPrice := none } s).1.currentSize = s.currentSize := by
  have hh : checkSystemHealth now s = s := by
    rw [checkSystemHealth, if_neg (not_le.mpr h3), if_neg (not_le.mpr h4)]
  have hps : checkPositionSize (weiToEther v) s = (s, true) := by
    rw [checkPositionSize, if_neg (not_lt.mpr h5)]
  have hgl : checkGasLimits (weiToGwei gp) ((g : ℕ) : ℚ) s =
      ({ s with currentDailySpend :=
          s.currentDailySpend + weiToGwei gp * (g : ℚ) / 1000000000 }, true) := by
    rw [checkGasLimits, if_neg (not_lt.mpr h6)]
    dsimp only
    rw [if_neg (not_lt.mpr h7)]
  have hwe : weiToEther 0 = 0 := by simp [weiToEther]
  simp only [validateTransaction, h1, Bool.not_true, Bool.false_eq_true,
    if_false, hh, h2, Option.getD_some, Option.getD_none, hps, hgl,
    checkTxRate, checkProfitThreshold, hwe, triggerBreaker]
  cases hrate : decide
      ((List.filter (fun t => decide (now - t ≤ s.txWindow))
        s.txTimestamps).length < s.maxTxPerWindow) with
  | false => simp [hrate]
  | true => simp [hrate, h8]

/-- Helper: the health check either preserves or zeroes the position
counter. -/
theorem checkSystemHealth_size (now : ℚ) (s : CBState) :
    (checkSystemHealth now s).currentSize = s.currentSize ∨
    (checkSystemHealth now s).currentSize = 0 := by
  unfold checkSystemHealth
  by_cases hm : now - s.lastMetricsReset ≥ s.metricsResetInterval
  · rw [if_pos hm]
    right
    rfl
  · rw [if_neg hm]
    left
    by_cases hc : now - s.lastHealthCheck ≥ s.healthCheckInterval
    · rw [if_pos hc]
      dsimp only
      split_ifs <;> rfl
    · rw [if_neg hc]

/-- Helper: the position check never changes the position counter. -/
theorem checkPositionSize_size (v : ℚ) (s : CBState) :
    ((checkPositionSize v s).1).currentSize = s.currentSize := by
  unfold checkPositionSize
  split_ifs <;> rfl

/-- Helper: the gas check never changes the position counter. -/
theorem checkGasLimits_size (gp g : ℚ) (s : CBState) :
    ((checkGasLimits gp g s).1).currentSize = s.currentSize := by
  unfold checkGasLimits
  dsimp only
  split_ifs <;> rfl

/-- Helper: the rate check never changes the position counter. -/
theorem checkTxRate_size (now : ℚ) (s : CBState) :
    ((checkTxRate now s).1).currentSize = s.currentSize := by
  rfl

/-- Helper: the profit check never changes the position counter. -/
theorem checkProfitThreshold_size (p : ℚ) (s : CBState) :
    ((checkProfitThreshold p s).1).currentSize = s.currentSize := by
  unfold checkProfitThreshold
  split_ifs <;> rfl

/-- Helper: the slippage check never changes the position counter. -/
theorem checkSlippage_size (e a : ℚ) (s : CBState) :
    ((checkSlippage e a s).1).currentSize = s.currentSize := by
  unfold checkSlippage
  dsimp only
  split_ifs <;> rfl

/-- Helper: after any `validate_transaction` call, the position counter is
unchanged, zeroed by the daily metrics reset, or the call succeeded. -/
theorem validate_size_cases (now : ℚ) (tx : Tx) (s : CBState) :
    (validateTransaction now tx s).1.currentSize = s.currentSize ∨
    (validateTransaction now tx s).1.currentSize = 0 ∨
    (validateTransaction now tx s).2 = true := by
  have hsh := checkSystemHealth_size now s
  rw [validateTransaction]
  dsimp only
  split
  · exact Or.inl rfl
  · split
    · rcases hsh with h | h
      · exact Or.inl h
      · exact Or.inr (Or.inl h)
    · split
      · rcases hsh with h | h
        · exact Or.inl h
        · exact Or.inr (Or.inl h)
      · repeat' split
        all_goals
          simp only [checkPositionSize_size, checkGasLimits_size,
            checkTxRate_size, checkProfitThreshold_size, checkSlippage_size]
        all_goals
          first
            | exact Or.inr (Or.inr rfl)
            | exact Or.inr (Or.inr trivial)
            | exact hsh.elim Or.inl (fun h2 => Or.inr (Or.inl h2))
            | (rename_i heq
               have h5 := congrArg Prod.fst heq
               dsimp only at h5
               rw [← h5]
               simp only [checkSlippage_size, checkProfitThreshold_size,
                 checkTxRate_size, checkGasLimits_size, checkPositionSize_size]
               exact hsh.elim Or.inl (fun h2 => Or.inr (Or.inl h2)))

/-- C10: transaction validation is not atomic on rejection — when the
gas-limit check passes, the daily gas-spend counter is increased by the
transaction gas cost even though a later check (here min-profit, or tx-rate)
rejects the transaction and `validate_transaction` returns `False`; the
position-size counter, in contrast, is changed on a failing call only by the
daily metrics reset, hence increased only when validation succeeds. -/
theorem gas_spend_persists_on_rejection (now : ℚ) (s : CBState) (v gp g : ℕ)
    (h1 : s.enabled = true) (h2 : s.triggered = false)
    (h3 : now - s.lastMetricsReset < s.metricsResetInterval)
    (h4 : now - s.lastHealthCheck < s.healthCheckInterval)
    (h5 : s.currentSize + weiToEther v ≤ s.maxPositionSize)
    (h6 : weiToGwei gp ≤ s.maxGasPriceGwei)
    (h7 : s.currentDailySpend + weiToGwei gp * (g : ℚ) / 1000000000
      ≤ s.maxDailyGasSpend)
    (h8 : 0 < s.minProfitThreshold) :
    ((validateTransaction now
        { value := some v, gasPrice := some gp, gas := some g,
          expectedProfit := none, expectedPrice := none,
          actualPrice := none } s).2 = false ∧
      (validateTransaction now
        { value := some v, gasPrice := some gp, gas := some g,
          expectedProfit := none, expectedPrice := none,
          actualPrice := none } s).1.currentDailySpend
        = s.currentDailySpend + weiToGwei gp * (g : ℚ) / 1000000000 ∧
      (validateTransaction now
        { value := some v, gasPrice := some gp, gas := some g,
          expectedProfit := none, expectedPrice := none,
          actualPrice := none } s).1.currentSize = s.currentSize) ∧
    ∀ (now2 : ℚ) (tx2 : Tx) (s2 : CBState),
      (validateTransaction now2 tx2 s2).2 = false →
      (validateTransaction now2 tx2 s2).1.currentSize = s2.currentSize ∨
      (validateTransaction now2 tx2 s2).1.currentSize = 0 := by
  refine ⟨validate_gas_spend_path now s v gp g h1 h2 h3 h4 h5 h6 h7 h8, ?_⟩
  intro now2 tx2 s2 hf
  rcases validate_size_cases now2 tx2 s2 with h | h | h
  · exact Or.inl h
  · exact Or.inr h
  · rw [hf] at h
    exact Bool.noConfusion h

/-- Witness for `gas_spend_persists_on_rejection` at a concrete permissive
state and a 50-gwei, 21000-gas transaction. -/
theorem gas_spend_persists_witness :
    (validateTransaction 1
        { value := some (10 ^ 18), gasPrice := some (5 * 10 ^ 10),
          gas := some 21000, expectedProfit := none, expectedPrice := none,
          actualPrice := none } sampleState).2 = false ∧
    (validateTransaction 1
        { value := some (10 ^ 18), gasPrice := some (5 * 10 ^ 10),
          gas := some 21000, expectedProfit := none, expectedPrice := none,
          actualPrice := none } sampleState).1.currentDailySpend
      = sampleState.currentDailySpend
        + weiToGwei (5 * 10 ^ 10) * ((21000 : ℕ) : ℚ) / 1000000000 ∧
    (validateTransaction 1
        { value := some (10 ^ 18), gasPrice := some (5 * 10 ^ 10),
          gas := some 21000, expectedProfit := none, expectedPrice := none,
          actualPrice := none } sampleState).1.currentSize
      = sampleState.currentSize :=
  (gas_spend_persists_on_rejection 1 sampleState (10 ^ 18) (5 * 10 ^ 10) 21000
    rfl rfl (by norm_num [sampleState]) (by norm_num [sampleState])
    (by norm_num [sampleState, weiToEther])
    (by norm_num [sampleState, weiToGwei])
    (by norm_num [sampleState, weiToGwei])
    (by norm_num [sampleState])).1


/-- Helper: a universal statement over the four flash-loan venues is the
conjunction of its four instances. -/
theorem provider_forall (P : Provider → Prop) :
    (∀ p, P p) ↔ P .aaveV3 ∧ P .dydx ∧ P .balancer ∧ P .uniswapV3 := by
  constructor
  · intro h
    exact ⟨h _, h _, h _, h _⟩
  · rintro ⟨ha, hd, hb, hu⟩ p
    cases p <;> assumption

/-- C4 counterexample: at amount 0 with every venue initialized and holding
liquidity 0, every venue qualifies with absolute fee 0, and
`get_optimal_provider` returns `aave_v3` — the first venue in dictionary
iteration order — while the claimed tie-break (lower fee fraction, then
alphabetic venue id) selects `dydx`, whose fee fraction 0 is the lowest. -/
theorem provider_tiebreak_cex :
    getOptimalProvider snapAll 0 = some Provider.aaveV3 ∧
    claimedSelect snapAll 0 = some Provider.dydx ∧
    Provider.aaveV3 ≠ Provider.dydx := by
  refine ⟨?_, ?_, by decide⟩
  · simp [getOptimalProvider, providerOrder, selectStep, qualifies, snapAll,
      providerFee, feeFraction]
  · norm_num [claimedSelect, providerOrder, qualifies, snapAll, providerFee,
      feeFraction, alphaRank]

/-- C4 amended: `get_optimal_provider` returns `none` exactly when no provider
qualifies (contract initialized, known liquidity at least the amount); any
returned venue qualifies and has the minimum absolute fee among qualified
venues; and fee ties — which arise exactly at amount 0 — are broken by the
provider-table iteration order (`aave_v3`, `dydx`, `balancer`, `uniswap_v3`),
not by fee fraction or alphabetic venue id. -/
theorem getOptimalProvider_characterization (snap : ProviderSnapshot)
    (amount : ℕ) :
    (getOptimalProvider snap amount = none ↔
      ∀ p, qualifies snap amount p = false) ∧
    (∀ p, getOptimalProvider snap amount = some p →
      qualifies snap amount p = true ∧
      ∀ q, qualifies snap amount q = true →
        providerFee p amount ≤ providerFee q amount) ∧
    (amount = 0 → getOptimalProvider snap amount
      = providerOrder.find? (qualifies snap amount)) := by
  have ha0 : (0 : ℚ) ≤ (amount : ℚ) := by positivity
  rcases Nat.eq_zero_or_pos amount with h0 | hpos
  · subst h0
    have z : ∀ p, providerFee p 0 = 0 := by
      intro p
      cases p <;> simp [providerFee, feeFraction]
    cases hqa : qualifies snap 0 .aaveV3 <;>
      cases hqd : qualifies snap 0 .dydx <;>
        cases hqb : qualifies snap 0 .balancer <;>
          cases hqu : qualifies snap 0 .uniswapV3 <;>
            simp_all [getOptimalProvider, providerOrder, selectStep,
              provider_forall, z, List.find?]
  · have hne : amount ≠ 0 := Nat.pos_iff_ne_zero.mp hpos
    have ha : (0 : ℚ) < (amount : ℚ) := by exact_mod_cast hpos
    have c2 : providerFee .balancer amount < providerFee .aaveV3 amount := by
      simp only [providerFee, feeFraction]
      nlinarith
    have c5 : providerFee .uniswapV3 amount < providerFee .aaveV3 amount := by
      simp only [providerFee, feeFraction]
      nlinarith
    have c6 : providerFee .dydx amount < providerFee .aaveV3 amount := by
      simp only [providerFee, feeFraction]
      nlinarith
    have c7 : providerFee .dydx amount < providerFee .balancer amount := by
      simp only [providerFee, feeFraction]
      nlinarith
    have c8 : providerFee .dydx amount < providerFee .uniswapV3 amount := by
      simp only [providerFee, feeFraction]
      nlinarith
    have lbu : providerFee .balancer amount ≤ providerFee .uniswapV3 amount := by
      simp only [providerFee, feeFraction]
      nlinarith
    have n1 : (providerFee .balancer amount < providerFee .dydx amount)
        = False := eq_false (not_lt.mpr (le_of_lt c7))
    have n2 : (providerFee .uniswapV3 amount < providerFee .dydx amount)
        = False := eq_false (not_lt.mpr (le_of_lt c8))
    have n3 : (providerFee .uniswapV3 amount < providerFee .balancer amount)
        = False := eq_false (not_lt.mpr lbu)
    cases hqa : qualifies snap amount .aaveV3 <;>
      cases hqd : qualifies snap amount .dydx <;>
        cases hqb : qualifies snap amount .balancer <;>
          cases hqu : qualifies snap amount .uniswapV3 <;>
            simp [getOptimalProvider, providerOrder, selectStep,
              hqa, hqd, hqb, hqu, n1, n2, n3, c2, c5, c6, c7, c8,
              le_of_lt c2, le_of_lt c5, le_of_lt c6, le_of_lt c7,
              le_of_lt c8, lbu, hne, provider_forall, List.find?]

/-- Witness for `getOptimalProvider_characterization` at the all-qualified
zero-liquidity snapshot and amount 0. -/
theorem getOptimalProvider_characterization_witness :
    qualifies snapAll 0 Provider.aaveV3 = true ∧
    (∀ q, qualifies snapAll 0 q = true →
      providerFee Provider.aaveV3 0 ≤ providerFee q 0) ∧
    getOptimalProvider snapAll 0 = providerOrder.find? (qualifies snapAll 0) := by
  have h := getOptimalProvider_characterization snapAll 0
  have hval : getOptimalProvider snapAll 0 = some Provider.aaveV3 := by
    simp [getOptimalProvider, providerOrder, selectStep, qualifies, snapAll,
      providerFee, feeFraction]
  obtain ⟨hq, hmin⟩ := h.2.1 Provider.aaveV3 hval
  exact ⟨hq, hmin, h.2.2 rfl⟩


end MevBot
